import Mathlib

/-!
Verification development for the llm-batch-orchestrator repository.

The development shallowly embeds the dispatch-and-pipeline-orchestration
subsystem: `services/pipeline_logic.py` (pure text/JSON helpers),
`services/dispatcher.py` (failover submission with a global cooldown), and
`scheduler.py` (the periodic sweep advancing the seven-stage pipeline).
External collaborators (the batch API, shared storage, the JSON library)
are passed in as explicit oracle functions; per-call outcomes are modelled
with `Except`/`Option` so that a Python `raise` is an `.error` value.
-/

namespace LLMBatch

/-- A JSON value as handled by the Python code (dicts are association lists;
well-formed dicts carry distinct keys and lookup takes the first match). -/
inductive JVal where
  | null : JVal
  | bool : Bool → JVal
  | num : Int → JVal
  | str : String → JVal
  | arr : List JVal → JVal
  | obj : List (String × JVal) → JVal
  deriving Repr

/-- Dictionary lookup: Python `d[k]` with `KeyError`/`TypeError` caught, or
`d.get(k)`; both yield no value exactly when the lookup cannot produce one. -/
def jget (v : JVal) (k : String) : Option JVal :=
  match v with
  | JVal.obj kvs => (kvs.find? (fun kv => kv.1 == k)).map (fun kv => kv.2)
  | _ => none

/-- List indexing: Python `xs[i]` with `IndexError`/`TypeError` caught. -/
def jindex (v : JVal) (i : Nat) : Option JVal :=
  match v with
  | JVal.arr xs => xs.get? i
  | _ => none

/-- Characters matched by the regex class backslash-s in Python. -/
def pySpace (c : Char) : Bool :=
  c = ' ' || c = '\t' || c = '\n' || c = '\r' || c = '\x0b' || c = '\x0c'

/-- Prefix test on character lists. -/
def charsPrefix : List Char → List Char → Bool
  | [], _ => true
  | _ :: _, [] => false
  | a :: xs, b :: ys => a = b && charsPrefix xs ys

/-- Containment test on character lists: Python `needle in hay`. -/
def charsContains (needle : List Char) : List Char → Bool
  | [] => charsPrefix needle []
  | c :: cs => charsPrefix needle (c :: cs) || charsContains needle cs

/-- Python `needle in hay` on strings. -/
def strContains (hay needle : String) : Bool :=
  charsContains needle.data hay.data

/-- One pass of Python `re.sub` removing, at every line start, the fence
`fence` together with the following run of whitespace (the regex is the
fence followed by backslash-s-star, compiled with MULTILINE).  `atStart`
records whether the current position is a line start; the `Nat` argument is
fuel bounding the recursion (each step consumes at least one character, so
fuel equal to the input length suffices). -/
def stripFenceAux (fence : List Char) : Nat → Bool → List Char → List Char
  | 0, _, s => s
  | _ + 1, _, [] => []
  | n + 1, atStart, c :: cs =>
    if atStart && charsPrefix fence (c :: cs) then
      let afterFence := (c :: cs).drop fence.length
      let ws := afterFence.takeWhile pySpace
      let rest := afterFence.dropWhile pySpace
      stripFenceAux fence n (ws.getLast? = some '\n') rest
    else
      c :: stripFenceAux fence n (c = '\n') cs

/-- `re.sub` of a line-start fence plus trailing whitespace, on strings. -/
def subFence (fence text : String) : String :=
  String.mk (stripFenceAux fence.data (text.data.length + 1) true text.data)

/-- The slice `text[start:end]` with `start` the first index of an opening
brace and `end` one past the last index of a closing brace, applied only
when both braces occur (source: `clean_and_parse_json`, step 2). -/
def extractBraceSpan (l : List Char) : List Char :=
  if l.contains '{' && l.contains '}' then
    let s := l.findIdx (fun c => c = '{')
    let e := l.length - 1 - (l.reverse.findIdx (fun c => c = '}'))
    (l.take (e + 1)).drop s
  else l

/-- The full cleaning pipeline of `PipelineLogic.clean_and_parse_json`
before the parse: strip fenced-code-block markers, then cut to the
outermost brace span. -/
def cleanedText (text : String) : String :=
  String.mk (extractBraceSpan (subFence "```" (subFence "```json" text)).data)

/-- `PipelineLogic.clean_and_parse_json`.  `json_loads` is the library
parser: `.error ()` is a `JSONDecodeError`; parsing the text `null` yields
`.ok JVal.null`, which Python returns as `None` — indistinguishable from
the failure return, hence both map to `none` here.  Empty (falsy) input
returns an empty dict before any cleaning or parsing. -/
def clean_and_parse_json (json_loads : String → Except Unit JVal) (text : String) : Option JVal :=
  if text = "" then some (JVal.obj [])
  else
    match json_loads (cleanedText text) with
    | Except.ok JVal.null => none
    | Except.ok v => some v
    | Except.error _ => none

/-- The nested access of `PipelineLogic._extract_text`:
`vertex_output['prediction']['candidates'][0]['content']['parts'][0]['text']`,
where any failing subscript raises `KeyError`/`IndexError`/`TypeError`. -/
def extractTextPath (v : JVal) : Option JVal :=
  ((((((jget v "prediction").bind (fun p => jget p "candidates")).bind
      (fun c => jindex c 0)).bind (fun c0 => jget c0 "content")).bind
      (fun ct => jget ct "parts")).bind (fun ps => jindex ps 0)).bind
      (fun p0 => jget p0 "text")

/-- `PipelineLogic._extract_text`: the nested text of a batch output
envelope, with the subscript errors caught as the empty string.  The source
returns the raw leaf; the batch API stores the generated text as a JSON
string, so a leaf of any other kind is a malformed envelope and is likewise
collapsed to the empty string here. -/
def extract_text (vertex_output : JVal) : String :=
  match extractTextPath vertex_output with
  | some (JVal.str s) => s
  | _ => ""

/-- Best-effort rendering of a JSON value interpolated into a Python
f-string; faithful for the scalar values the prompts actually interpolate. -/
def pyStr : JVal → String
  | JVal.null => "None"
  | JVal.bool b => if b then "True" else "False"
  | JVal.num n => toString n
  | JVal.str s => s
  | JVal.arr _ => "[...]"
  | JVal.obj _ => "\x7b...\x7d"

/-- `PipelineLogic.build_input_for_stage`: the stage item (a provider-shaped
request plus the carried-forward correlation identifier).  A call with both
optional arguments absent would raise in the source; no call site does
that, and it is rendered here as a null correlation identifier. -/
def build_input_for_stage (stage_num : Nat) (previous_output : Option JVal)
    (original_request : Option JVal) : JVal :=
  let custom_id : JVal :=
    match original_request with
    | some r => (jget r "id").getD JVal.null
    | none =>
      match previous_output with
      | some p => (jget p "custom_id").getD JVal.null
      | none => JVal.null
  let prev_text : String :=
    match previous_output with
    | some p => extract_text p
    | none => ""
  let prompt_text : String :=
    if stage_num = 1 then
      let topic : JVal :=
        match original_request with
        | some r => (jget r "topic").getD (JVal.str "Unknown Topic")
        | none => JVal.str "Unknown Topic"
      "Role: Editor. Task: Create a 5-chapter outline for \x27" ++ pyStr topic ++
        "\x27. Output JSON only."
    else if stage_num = 2 then
      "Role: Writer. Task: Write Chapter 1 based on outline:\n" ++ prev_text
    else if stage_num = 3 ∨ stage_num = 4 ∨ stage_num = 5 ∨ stage_num = 6 then
      "Role: Writer. Task: Write Chapter " ++ toString (stage_num - 1) ++
        " continuing from previous content:\n" ++ prev_text.take 200 ++ "..."
    else if stage_num = 7 then
      "Role: Reviewer. Task: Final polish and format as JSON metadata.\nContext: " ++
        prev_text.take 500 ++ "..."
    else ""
  JVal.obj
    [("request", JVal.obj
        [("contents", JVal.arr
            [JVal.obj
               [("role", JVal.str "user"),
                ("parts", JVal.arr [JVal.obj [("text", JVal.str prompt_text)]])]])]),
     ("custom_id", custom_id)]

/-- `PipelineLogic.validate_output`: rejects an item whose extracted text is
empty or contains a refusal marker. -/
def validate_output (stage_num : Nat) (output_item : JVal) : Bool × String :=
  let _ := stage_num
  let text := extract_text output_item
  if text = "" then (false, "Empty text generated")
  else if strContains text "I cannot" || strContains text "As an AI" then
    (false, "Refusal detected")
  else (true, "OK")

/-- Default of `settings.MAX_CONCURRENT_JOBS` in `config/settings.py`
(environment-overridable; the value itself is immaterial to the claims). -/
def MAX_CONCURRENT_JOBS : Nat := 5

/-- Default of `settings.JOB_TIMEOUT_SECONDS` in `config/settings.py`. -/
def JOB_TIMEOUT_SECONDS : Int := 7200

/-- One entry of `config_manager.project_pool`; only the identifier is
observable to the orchestration logic (auth material, region and key path
ride along opaquely). -/
structure ProjectCtx where
  project_id : String
  deriving DecidableEq, Repr

/-- The `BatchJob` record as read and written by `Dispatcher.submit_job`
(`core/models.py`); timestamps are omitted, the dispatcher never reads
them. -/
structure DJob where
  id : String
  status : String
  input_gcs_uri : Option String
  output_gcs_uri : Option String
  vertex_job_id : Option String
  result_summary : Option String
  used_project_id : Option String
  deriving Repr

/-- Python dict update: the merged dict of the literal with the key `k`
rebound to `v` (used for the spread of `request_data` with the job id). -/
def setKey (kvs : List (String × JVal)) (k : String) (v : JVal) : List (String × JVal) :=
  kvs.filter (fun kv => kv.1 != k) ++ [(k, v)]

/-- The one-item stage-1 input batch built by `Dispatcher.submit_job`
(line 50): the original request with the job id spliced in, fed to the
pipeline's stage-1 builder. -/
def stage1Items (job_uuid : String) (request_data : List (String × JVal)) : List JVal :=
  [build_input_for_stage 1 none
    (some (JVal.obj (setKey request_data "id" (JVal.str job_uuid))))]

/-- Result of the project-selection loop of `Dispatcher.submit_job`:
the value returned or the exception raised, the job record as committed,
the number of remote submission attempts performed, and the cooldown
timestamp after the call. -/
structure TryOut where
  result : Except String JVal
  job : DJob
  attempts : Nat
  cooldown_until : Int
  deriving Repr

/-- The loop of `Dispatcher.submit_job` step 3 (lines 74-112): try each
candidate in the already-shuffled traversal; the first successful remote
submission stamps the job RUNNING and returns; if every candidate fails the
job is marked FAILED with the last error and the global cooldown is tripped
for 60 seconds.  `vsubmit` is the remote submission
(`VertexHandler.submit_job`) keyed by the candidate identifier: its
`.error` is the exception text caught by the loop. -/
def tryProjects (now cu : Int) (bucket job_uuid : String)
    (vsubmit : String → Except String String) (job : DJob) :
    String → List ProjectCtx → TryOut
  | lastError, [] =>
    let base := if lastError = "" then "Unknown error" else lastError
    let msg := "All projects failed: " ++ base
    ⟨Except.error msg,
     { job with status := "FAILED", result_summary := some msg },
     0, now + 60⟩
  | lastError, p :: rest =>
    let _ := lastError
    match vsubmit p.project_id with
    | Except.ok vjid =>
      let out_root := "gs://" ++ bucket ++ "/" ++ job_uuid ++ "/stage_1/output/"
      ⟨Except.ok (JVal.obj
          [("job_uuid", JVal.str job_uuid), ("status", JVal.str "STARTED"),
           ("project", JVal.str p.project_id)]),
       { job with status := "RUNNING", used_project_id := some p.project_id,
                  vertex_job_id := some vjid, output_gcs_uri := some out_root },
       1, cu⟩
    | Except.error e =>
      let t := tryProjects now cu bucket job_uuid vsubmit job e rest
      { t with attempts := t.attempts + 1 }

/-- Full outcome of one `Dispatcher.submit_job` call: returned value or
raised exception, the job record as last committed (none when no record
with the given id exists), how many storage uploads and remote submission
attempts were performed, and the cooldown timestamp afterwards. -/
structure SubmitOut where
  result : Except String JVal
  job : Option DJob
  uploads : Nat
  attempts : Nat
  cooldown_until : Int
  deriving Repr

/-- `Dispatcher.submit_job` (`services/dispatcher.py` lines 18-112).
`now` is `time.time()`, `cu` the dispatcher's `cooldown_until`, `job0` the
record found for `job_uuid` (none models the missing-record `ValueError`),
`running_count` the count of RUNNING jobs, and `upload` the shared-storage
upload (`GCSHandler.upload_jsonl`, receiving the stage-1 batch and the
destination path; the bucket resolution inside it goes through the external
storage interface).  The upload happens once, before the traversal. -/
def submit_job (now cu : Int) (bucket : String)
    (upload : List JVal → String → Except String String)
    (vsubmit : String → Except String String)
    (pool : List ProjectCtx) (running_count : Nat)
    (job_uuid : String) (request_data : List (String × JVal))
    (job0 : Option DJob) : SubmitOut :=
  match job0 with
  | none => ⟨Except.error ("Job " ++ job_uuid ++ " not found in DB"), none, 0, 0, cu⟩
  | some job =>
    if now < cu then
      let remaining := cu - now
      let message := "System in cooldown (60s). Retry in " ++ toString remaining ++ "s"
      ⟨Except.error message,
       some { job with status := "FAILED", result_summary := some message }, 0, 0, cu⟩
    else if running_count ≥ MAX_CONCURRENT_JOBS then
      let message := "Max concurrent jobs reached (" ++ toString MAX_CONCURRENT_JOBS ++ "). Retry later."
      ⟨Except.error message,
       some { job with status := "FAILED", result_summary := some message }, 0, 0, cu⟩
    else
      match upload (stage1Items job_uuid request_data) (job_uuid ++ "/stage_1/input.jsonl") with
      | Except.error e =>
        ⟨Except.error e,
         some { job with status := "FAILED",
                         result_summary := some ("GCS Upload Failed: " ++ e) }, 1, 0, cu⟩
      | Except.ok input_uri =>
        let job1 := { job with input_gcs_uri := some input_uri }
        match pool with
        | [] =>
          ⟨Except.error "No active projects loaded.",
           some { job1 with status := "FAILED",
                            result_summary := some "No active projects loaded." }, 1, 0, cu⟩
        | p :: rest =>
          let t := tryProjects now cu bucket job_uuid vsubmit job1 "" (p :: rest)
          ⟨t.result, some t.job, 1, t.attempts, t.cooldown_until⟩

/-- The loop of `Dispatcher.dispatch_chat` (lines 140-163): first
successful chat completion wins; exhausting the pool trips the shared
60-second cooldown.  Components: result, number of chat attempts, cooldown
timestamp afterwards. -/
def tryChat (now cu : Int) (chat : String → Except String JVal) :
    String → List ProjectCtx → Except String JVal × Nat × Int
  | lastError, [] =>
    (Except.error ("All projects failed chat. Last error: " ++ lastError), 0, now + 60)
  | lastError, p :: rest =>
    let _ := lastError
    match chat p.project_id with
    | Except.ok res => (Except.ok res, 1, cu)
    | Except.error e =>
      let (r, n, cu') := tryChat now cu chat e rest
      (r, n + 1, cu')

/-- `Dispatcher.dispatch_chat` (lines 114-163): stateless failover with the
shared global cooldown; the cooldown rejection message is the fixed string
of line 131. -/
def dispatch_chat (now cu : Int) (chat : String → Except String JVal)
    (pool : List ProjectCtx) : Except String JVal × Nat × Int :=
  if now < cu then (Except.error "System in cooldown.", 0, cu)
  else
    match pool with
    | [] => (Except.error "No active projects loaded.", 0, cu)
    | p :: rest => tryChat now cu chat "" (p :: rest)

/-- The `BatchJob` record as read and written by `scheduler.py`.  The
scheduler addresses the record through the field names of an earlier schema
generation (`job_uuid`, `vertex_job_name`, `gcs_prefix`, `current_stage`,
`last_error`); the embedding keeps those names (with `gcs_prefix` renamed
to `gcs_root`).  `updated_at` is bumped to the sweep time whenever a commit
writes the record (the column's onupdate hook). -/
structure SJob where
  job_uuid : String
  status : String
  current_stage : Nat
  vertex_job_name : Option String
  gcs_root : String
  retry_count : Nat
  updated_at : Int
  last_error : Option String
  deriving DecidableEq, Repr

/-- `_handle_failure` (`scheduler.py` lines 107-118): below the hard-coded
ceiling of 3 the retry counter is incremented and the status left alone;
at or above it the job is forced FAILED with the recorded reason. -/
def handle_failure (now : Int) (job : SJob) (error_msg : String) : SJob :=
  if job.retry_count < 3 then
    { job with retry_count := job.retry_count + 1, updated_at := now }
  else
    { job with status := "FAILED", last_error := some error_msg, updated_at := now }

/-- Modelled from the spec: the collaborators `scheduler.py` reaches
through `config_manager.get_active_project`, the no-argument
`VertexHandler` and `GCSHandler` — that wiring belongs to an earlier
generation of `config/manager.py` and `services/vertex_handler.py` that is
not under src (the current modules lack `get_active_project` and use a
different `submit_job` signature).  Per spec §6 they are the External Batch
API (`getStatus(remoteHandle) -> state`, `submit(jobSpec) -> remoteHandle`)
and External Storage (`uploadBatch(items, path) -> locationURI`,
`listAndReadBatchOutputs(pathPrefix) -> raw outputs`); an `.error` models a
raised exception, and `read_batch_output` never raises (it degrades to an
empty list). -/
structure SchedEnv where
  hasActiveProject : Bool
  getStatus : Option String → Except String String
  readOutput : String → List JVal
  upload : List JVal → String → Except String String
  batchSubmit : String → String → String → Except String String

/-- Outcome of processing one RUNNING job in the sweep: the record as left
in the store, and the batch handed to the storage upload for the next
stage, when the sweep got that far. -/
structure StepRes where
  job : SJob
  uploadedBatch : Option (List JVal)
  deriving Repr

/-- The body of the per-job loop of `process_pipelines` (`scheduler.py`
lines 42-100): zombie timeout first, then the external status poll, then —
on success — output download, validation-filtered construction of the next
stage batch, and resubmission; terminal external failure goes to the retry
logic.  An `.error` is an exception escaping the job's processing. -/
def processJob (now : Int) (env : SchedEnv) (job : SJob) : Except String StepRes :=
  if now - job.updated_at > JOB_TIMEOUT_SECONDS then
    Except.ok ⟨{ job with status := "FAILED",
                          last_error := some "Timeout: Job stuck in RUNNING for too long",
                          updated_at := now }, none⟩
  else
    match env.getStatus job.vertex_job_name with
    | Except.error e => Except.error e
    | Except.ok state =>
      if state = "JOB_STATE_SUCCEEDED" then
        let results := env.readOutput
          (job.gcs_root ++ "stage_" ++ toString job.current_stage ++ "/output/")
        match results with
        | [] => Except.ok ⟨handle_failure now job "No output files found in GCS", none⟩
        | _ :: _ =>
          let next_stage := job.current_stage + 1
          if next_stage > 7 then
            Except.ok ⟨{ job with status := "COMPLETED", current_stage := 7,
                                  updated_at := now }, none⟩
          else
            let next_inputs :=
              (results.filter (fun r => (validate_output job.current_stage r).1)).map
                (fun r => build_input_for_stage next_stage (some r) none)
            match next_inputs with
            | [] => Except.ok ⟨handle_failure now job "All items failed validation", none⟩
            | _ :: _ =>
              match env.upload next_inputs
                  (job.job_uuid ++ "/stage_" ++ toString next_stage ++ "/input.jsonl") with
              | Except.error e =>
                Except.ok ⟨handle_failure now job ("Submission failed: " ++ e),
                           some next_inputs⟩
              | Except.ok input_uri =>
                match env.batchSubmit ("stage-" ++ toString next_stage ++ "-" ++ job.job_uuid)
                    input_uri (job.job_uuid ++ "/stage_" ++ toString next_stage ++ "/output/") with
                | Except.error e =>
                  Except.ok ⟨handle_failure now job ("Submission failed: " ++ e),
                             some next_inputs⟩
                | Except.ok new_job_id =>
                  Except.ok ⟨{ job with vertex_job_name := some new_job_id,
                                        current_stage := next_stage, updated_at := now },
                             some next_inputs⟩
      else if state = "JOB_STATE_FAILED" || state = "JOB_STATE_CANCELLED" then
        Except.ok ⟨handle_failure now job ("Vertex Job Failed with state " ++ state), none⟩
      else Except.ok ⟨job, none⟩

/-- The `for job in jobs` loop inside the single try of `process_pipelines`:
jobs are processed in order; an exception escaping one job's processing
aborts the loop (that job and every later one keep their stored state), and
is reported as the second component (the outer except logs it). -/
def sweepJobs (now : Int) (env : SchedEnv) : List SJob → List SJob × Option String
  | [] => ([], none)
  | j :: rest =>
    match processJob now env j with
    | Except.error e => (j :: rest, some e)
    | Except.ok r =>
      let (rest', err) := sweepJobs now env rest
      (r.job :: rest', err)

/-- `process_pipelines` (`scheduler.py` lines 12-105) over the RUNNING jobs
fetched at the start of the sweep: at or above the concurrency ceiling the
whole cycle is skipped; with no active project context the cycle is
likewise skipped; otherwise each job is processed in order.  The function
returns the stored records after the sweep and the exception the outer
except caught and logged, if any — the sweep itself never propagates. -/
def process_pipelines (now : Int) (env : SchedEnv) (jobs : List SJob) :
    List SJob × Option String :=
  if jobs.length ≥ MAX_CONCURRENT_JOBS then (jobs, none)
  else if !env.hasActiveProject then (jobs, none)
  else sweepJobs now env jobs

/-! Concrete fixtures used by the closed theorems below. -/

/-- A well-shaped batch output item whose generated text is `t`. -/
def goodItem (t : String) : JVal :=
  JVal.obj [("prediction", JVal.obj [("candidates", JVal.arr [JVal.obj
    [("content", JVal.obj [("parts", JVal.arr [JVal.obj [("text", JVal.str t)]])])]])])]

/-- A RUNNING scheduler-view job record at the given stage. -/
def mkSJob (uuid : String) (stage : Nat) (handle : Option String) (upd : Int) : SJob :=
  ⟨uuid, "RUNNING", stage, handle, uuid ++ "/", 0, upd, none⟩

/-- A scheduler environment whose status poll always answers `s` and whose
storage read always returns `items`; uploads and submissions succeed. -/
def envPoll (s : String) (items : List JVal) : SchedEnv :=
  ⟨true, fun _ => Except.ok s, fun _ => items,
   fun _ _ => Except.ok "gs://up", fun _ _ _ => Except.ok "newhandle"⟩

/-- A scheduler environment whose status poll raises on the handle `h1`
(the exception the current no-context handler construction would raise)
and answers `JOB_STATE_SUCCEEDED` on every other handle. -/
def envRaiseH1 : SchedEnv :=
  ⟨true,
   fun h => if h = some "h1" then
       Except.error "ValueError: VertexHandler requires a project_context to operate."
     else Except.ok "JOB_STATE_SUCCEEDED",
   fun _ => [goodItem "fine"],
   fun _ _ => Except.ok "gs://up", fun _ _ _ => Except.ok "newhandle"⟩

/-- A freshly created PENDING dispatcher-view job record. -/
def mkDJob (uuid : String) : DJob :=
  ⟨uuid, "PENDING", none, none, none, none, none⟩

/-- A remote submission oracle that succeeds only on the identifier `C`. -/
def vsOnlyC : String → Except String String :=
  fun pid => if pid = "C" then Except.ok "vjob-1" else Except.error "quota"

/-- A scheduler environment whose status poll raises on the handle `h1` and
answers a non-terminal state on every other handle. -/
def envRaiseUnknown : SchedEnv :=
  ⟨true, fun h => if h = some "h1" then Except.error "boom" else Except.ok "UNKNOWN",
   fun _ => [], fun _ _ => Except.ok "gs://up", fun _ _ _ => Except.ok "newhandle"⟩

/-! Helper lemmas shared by several claims. -/

/-- A job whose last update is older than the timeout ceiling is forced to
FAILED with the timeout reason, whatever the environment answers: the check
precedes the status poll. -/
theorem processJob_timeout (now : Int) (env : SchedEnv) (job : SJob)
    (h : now - job.updated_at > JOB_TIMEOUT_SECONDS) :
    processJob now env job =
      Except.ok ⟨{ job with status := "FAILED",
                            last_error := some "Timeout: Job stuck in RUNNING for too long",
                            updated_at := now }, none⟩ := by
  simp [processJob, h]

/-- A non-timed-out job whose poll answers a state the sweep does not
handle (neither SUCCEEDED nor FAILED/CANCELLED) is left untouched. -/
theorem processJob_nonterminal (now : Int) (env : SchedEnv) (job : SJob) (s : String)
    (htime : ¬ now - job.updated_at > JOB_TIMEOUT_SECONDS)
    (hpoll : env.getStatus job.vertex_job_name = Except.ok s)
    (h1 : s ≠ "JOB_STATE_SUCCEEDED") (h2 : s ≠ "JOB_STATE_FAILED")
    (h3 : s ≠ "JOB_STATE_CANCELLED") :
    processJob now env job = Except.ok ⟨job, none⟩ := by
  simp [processJob, htime, hpoll, h1, h2, h3]

/-! Claim C4. -/

/-- C4: a stage failure strictly below the retry ceiling of 3 increments
`retry_count` by one (bumping only the timestamp otherwise, so a RUNNING
job stays RUNNING); at or above the ceiling the job is forced FAILED with
the recorded reason and the counter untouched; the counter never exceeds
its old value plus one, and never exceeds the ceiling when it started at or
below it. -/
theorem C4_retry_ceiling (now : Int) (job : SJob) (msg : String) :
    (job.retry_count < 3 →
      handle_failure now job msg =
        { job with retry_count := job.retry_count + 1, updated_at := now }) ∧
    (3 ≤ job.retry_count →
      handle_failure now job msg =
        { job with status := "FAILED", last_error := some msg, updated_at := now }) ∧
    (handle_failure now job msg).retry_count ≤ job.retry_count + 1 ∧
    (job.retry_count ≤ 3 → (handle_failure now job msg).retry_count ≤ 3) := by
  refine ⟨fun h => by simp [handle_failure, h], fun h => ?_, ?_, fun hle => ?_⟩
  · have h' : ¬ job.retry_count < 3 := by omega
    simp [handle_failure, h']
  · by_cases h : job.retry_count < 3 <;> simp [handle_failure, h]
  · by_cases h : job.retry_count < 3 <;> simp [handle_failure, h] <;> omega

/-- Witness for C4 at the boundary: a job with two recorded retries fails
once more and stays below the ceiling (status untouched), a job with three
recorded retries is forced FAILED. -/
theorem C4_retry_ceiling_witness :
    handle_failure 5 (mkSJob "j4" 2 (some "h") 0) "boom" =
      { mkSJob "j4" 2 (some "h") 0 with retry_count := 1, updated_at := 5 } ∧
    handle_failure 5 { mkSJob "j4" 2 (some "h") 0 with retry_count := 3 } "boom" =
      { mkSJob "j4" 2 (some "h") 0 with retry_count := 3, status := "FAILED",
                                        last_error := some "boom", updated_at := 5 } :=
  ⟨(C4_retry_ceiling 5 (mkSJob "j4" 2 (some "h") 0) "boom").1 (by decide),
   (C4_retry_ceiling 5 { mkSJob "j4" 2 (some "h") 0 with retry_count := 3 } "boom").2.1
     (by decide)⟩

/-! Claim C5. -/

/-- C5: a RUNNING job whose elapsed time since its own `updated_at`
exceeds the timeout ceiling is forced FAILED with the timeout reason on the
next sweep, for every environment — so before and regardless of any status
poll; a job within the ceiling is not timed out (under a poll answering an
unhandled state it is left untouched). -/
theorem C5_zombie_timeout :
    (∀ (now : Int) (env : SchedEnv) (job : SJob),
        now - job.updated_at > JOB_TIMEOUT_SECONDS →
        processJob now env job =
          Except.ok ⟨{ job with status := "FAILED",
                                last_error := some "Timeout: Job stuck in RUNNING for too long",
                                updated_at := now }, none⟩) ∧
    (∀ (now : Int) (env : SchedEnv) (job : SJob) (s : String),
        ¬ now - job.updated_at > JOB_TIMEOUT_SECONDS →
        env.getStatus job.vertex_job_name = Except.ok s →
        s ≠ "JOB_STATE_SUCCEEDED" → s ≠ "JOB_STATE_FAILED" → s ≠ "JOB_STATE_CANCELLED" →
        processJob now env job = Except.ok ⟨job, none⟩) :=
  ⟨fun now env job h => processJob_timeout now env job h,
   fun now env job s ht hp h1 h2 h3 => processJob_nonterminal now env job s ht hp h1 h2 h3⟩

/-- Witness for C5: a job idle for 100000 seconds (ceiling 7200) is failed
with the timeout reason even under an environment whose poll would raise;
a job idle for 100 seconds is left untouched under a RUNNING poll. -/
theorem C5_zombie_timeout_witness :
    processJob 100000 envRaiseUnknown (mkSJob "j5" 3 (some "h1") 0) =
      Except.ok ⟨{ mkSJob "j5" 3 (some "h1") 0 with status := "FAILED",
                                                    last_error := some "Timeout: Job stuck in RUNNING for too long",
                                                    updated_at := 100000 }, none⟩ ∧
    processJob 100 (envPoll "JOB_STATE_RUNNING" []) (mkSJob "j5" 3 (some "h") 0) =
      Except.ok ⟨mkSJob "j5" 3 (some "h") 0, none⟩ :=
  ⟨C5_zombie_timeout.1 100000 envRaiseUnknown (mkSJob "j5" 3 (some "h1") 0) (by decide),
   C5_zombie_timeout.2 100 (envPoll "JOB_STATE_RUNNING" []) (mkSJob "j5" 3 (some "h") 0)
     "JOB_STATE_RUNNING" (by decide) rfl (by decide) (by decide) (by decide)⟩

/-! Claim C7. -/

/-- C7 counterexample: with five RUNNING jobs (ceiling 5) the sweep is
skipped wholesale — the first job is timed out and would be forced FAILED
if it were examined, yet it stays RUNNING after the sweep.  This refutes
the claim that the scheduler only logs and still processes every job. -/
theorem C7_counterexample :
    process_pipelines 100000 (envPoll "UNKNOWN" [])
        [mkSJob "a" 1 (some "h") 0, mkSJob "b" 1 (some "h") 0, mkSJob "c" 1 (some "h") 0,
         mkSJob "d" 1 (some "h") 0, mkSJob "e" 1 (some "h") 0] =
      ([mkSJob "a" 1 (some "h") 0, mkSJob "b" 1 (some "h") 0, mkSJob "c" 1 (some "h") 0,
        mkSJob "d" 1 (some "h") 0, mkSJob "e" 1 (some "h") 0], none) ∧
    processJob 100000 (envPoll "UNKNOWN" []) (mkSJob "a" 1 (some "h") 0) =
      Except.ok ⟨{ mkSJob "a" 1 (some "h") 0 with status := "FAILED",
                                                  last_error := some "Timeout: Job stuck in RUNNING for too long",
                                                  updated_at := 100000 }, none⟩ ∧
    (mkSJob "a" 1 (some "h") 0).status = "RUNNING" :=
  ⟨rfl, rfl, rfl⟩

/-- C7 amended: when the count of RUNNING jobs is at or above the
concurrency ceiling the scheduler logs and returns immediately: the whole
sweep is skipped and no job is examined or mutated. -/
theorem C7_ceiling_skips_sweep (now : Int) (env : SchedEnv) (jobs : List SJob)
    (h : jobs.length ≥ MAX_CONCURRENT_JOBS) :
    process_pipelines now env jobs = (jobs, none) := by
  simp [process_pipelines, h]

/-- Witness for C7 at five jobs against the default ceiling of five. -/
theorem C7_ceiling_skips_sweep_witness :
    process_pipelines 50 (envPoll "JOB_STATE_SUCCEEDED" [goodItem "t"])
        [mkSJob "v" 1 (some "h") 0, mkSJob "w" 1 (some "h") 0, mkSJob "x" 1 (some "h") 0,
         mkSJob "y" 1 (some "h") 0, mkSJob "z" 1 (some "h") 0] =
      ([mkSJob "v" 1 (some "h") 0, mkSJob "w" 1 (some "h") 0, mkSJob "x" 1 (some "h") 0,
        mkSJob "y" 1 (some "h") 0, mkSJob "z" 1 (some "h") 0], none) :=
  C7_ceiling_skips_sweep 50 (envPoll "JOB_STATE_SUCCEEDED" [goodItem "t"]) _ (by decide)

/-! Claim C8. -/

/-- C8 counterexample: a RUNNING job with no remote job handle is not
forced FAILED — the sweep still polls the external API with the missing
handle (the source handler answers UNKNOWN when the lookup fails) and
leaves the job exactly as it was, still RUNNING. -/
theorem C8_counterexample :
    (mkSJob "j8" 2 none 0).vertex_job_name = none ∧
    (mkSJob "j8" 2 none 0).status = "RUNNING" ∧
    processJob 10 (envPoll "UNKNOWN" []) (mkSJob "j8" 2 none 0) =
      Except.ok ⟨mkSJob "j8" 2 none 0, none⟩ :=
  ⟨rfl, rfl, rfl⟩

/-- C8 amended: the sweep performs no credential-binding or handle check —
a RUNNING job lacking a remote handle is still polled, and when the poll
answers a state the sweep does not handle the job is left untouched (not
forced FAILED, retry budget unchanged). -/
theorem C8_missing_handle_not_failed (now : Int) (env : SchedEnv) (job : SJob) (s : String)
    (hhandle : job.vertex_job_name = none)
    (htime : ¬ now - job.updated_at > JOB_TIMEOUT_SECONDS)
    (hpoll : env.getStatus none = Except.ok s)
    (h1 : s ≠ "JOB_STATE_SUCCEEDED") (h2 : s ≠ "JOB_STATE_FAILED")
    (h3 : s ≠ "JOB_STATE_CANCELLED") :
    processJob now env job = Except.ok ⟨job, none⟩ :=
  processJob_nonterminal now env job s htime (by rw [hhandle]; exact hpoll) h1 h2 h3

/-- Witness for C8 with a handleless job under a PENDING poll. -/
theorem C8_missing_handle_witness :
    processJob 10 (envPoll "JOB_STATE_PENDING" []) (mkSJob "j8w" 2 none 0) =
      Except.ok ⟨mkSJob "j8w" 2 none 0, none⟩ :=
  C8_missing_handle_not_failed 10 (envPoll "JOB_STATE_PENDING" []) (mkSJob "j8w" 2 none 0)
    "JOB_STATE_PENDING" rfl (by decide) rfl (by decide) (by decide) (by decide)

/-! Claim C6. -/

/-- C6 counterexample: two RUNNING jobs; polling the first raises, so the
sweep aborts — the second job is timed out and would be forced FAILED if it
were examined, yet after the sweep it is still RUNNING.  The exception is
only logged (returned as data), so it never reaches the periodic trigger,
but the remaining job was not examined. -/
theorem C6_counterexample :
    process_pipelines 100000 envRaiseH1
        [mkSJob "e1" 2 (some "h1") 99999, mkSJob "e2" 2 (some "h2") 0] =
      ([mkSJob "e1" 2 (some "h1") 99999, mkSJob "e2" 2 (some "h2") 0],
       some "ValueError: VertexHandler requires a project_context to operate.") ∧
    processJob 100000 envRaiseH1 (mkSJob "e2" 2 (some "h2") 0) =
      Except.ok ⟨{ mkSJob "e2" 2 (some "h2") 0 with status := "FAILED",
                                                    last_error := some "Timeout: Job stuck in RUNNING for too long",
                                                    updated_at := 100000 }, none⟩ ∧
    (mkSJob "e2" 2 (some "h2") 0).status = "RUNNING" :=
  ⟨rfl, rfl, rfl⟩

/-- C6 amended: an exception escaping one job's processing aborts the rest
of that sweep (the raising job and every later one keep their stored
state), but the sweep catches it at its own level: `process_pipelines`
returns normally with the exception only recorded for logging, so nothing
propagates to the periodic trigger. -/
theorem C6_abort_rest_no_propagate (now : Int) (env : SchedEnv) (f : SJob → StepRes) :
    (∀ (pre : List SJob) (j : SJob) (rest : List SJob) (e : String),
      (∀ p ∈ pre, processJob now env p = Except.ok (f p)) →
      processJob now env j = Except.error e →
      sweepJobs now env (pre ++ j :: rest) =
        (pre.map (fun p => (f p).job) ++ j :: rest, some e)) ∧
    (∀ jobs : List SJob, jobs.length < MAX_CONCURRENT_JOBS → env.hasActiveProject = true →
      process_pipelines now env jobs = sweepJobs now env jobs) := by
  constructor
  · intro pre
    induction pre with
    | nil => intro j rest e _ hj; simp [sweepJobs, hj]
    | cons q qs ih =>
      intro j rest e hpre hj
      have hq : processJob now env q = Except.ok (f q) := hpre q (by simp)
      have ihh := ih j rest e (fun p hp => hpre p (by simp [hp])) hj
      simp [sweepJobs, hq, ihh]
  · intro jobs hlen hact
    have h' : ¬ jobs.length ≥ MAX_CONCURRENT_JOBS := by omega
    simp [process_pipelines, h', hact]

/-- Witness for C6: a three-job sweep whose middle job raises — the first
job is processed, the second aborts the loop, the third keeps its state,
and the sweep returns the logged error normally. -/
theorem C6_abort_rest_witness :
    sweepJobs 100 envRaiseUnknown
        [mkSJob "w1" 2 (some "h2") 90, mkSJob "w2" 2 (some "h1") 90,
         mkSJob "w3" 2 (some "h3") 90] =
      ([mkSJob "w1" 2 (some "h2") 90, mkSJob "w2" 2 (some "h1") 90,
        mkSJob "w3" 2 (some "h3") 90], some "boom") ∧
    process_pipelines 100 envRaiseUnknown
        [mkSJob "w1" 2 (some "h2") 90, mkSJob "w2" 2 (some "h1") 90,
         mkSJob "w3" 2 (some "h3") 90] =
      sweepJobs 100 envRaiseUnknown
        [mkSJob "w1" 2 (some "h2") 90, mkSJob "w2" 2 (some "h1") 90,
         mkSJob "w3" 2 (some "h3") 90] := by
  have h := C6_abort_rest_no_propagate 100 envRaiseUnknown (fun p => ⟨p, none⟩)
  refine ⟨?_, h.2 _ (by decide) rfl⟩
  have h1 := h.1 [mkSJob "w1" 2 (some "h2") 90] (mkSJob "w2" 2 (some "h1") 90)
    [mkSJob "w3" 2 (some "h3") 90] "boom" (fun p hp => by
      simp at hp; subst hp; rfl) rfl
  simpa using h1

/-! Claim C2. -/

/-- C2 counterexample: two RUNNING jobs with a SUCCEEDED poll and a
non-empty output batch for which the claimed advancement does not happen:
at stage 7 the job transitions to COMPLETED with `current_stage` left at 7
and no resubmission; at stage 6 with a batch whose single item is a refusal
the filtered next-stage batch is empty, so the sweep takes the retry path —
`retry_count` is bumped, the stage stays 6 and no fresh handle is
recorded. -/
theorem C2_counterexample :
    processJob 100 (envPoll "JOB_STATE_SUCCEEDED" [goodItem "done"])
        (mkSJob "j7" 7 (some "h") 0) =
      Except.ok ⟨{ mkSJob "j7" 7 (some "h") 0 with status := "COMPLETED",
                                                   current_stage := 7, updated_at := 100 }, none⟩ ∧
    processJob 100 (envPoll "JOB_STATE_SUCCEEDED" [goodItem "As an AI I refuse"])
        (mkSJob "j6" 6 (some "h") 0) =
      Except.ok ⟨{ mkSJob "j6" 6 (some "h") 0 with retry_count := 1, updated_at := 100 },
                 none⟩ :=
  ⟨rfl, rfl⟩

/-- C2 amended: for a non-timed-out RUNNING job at a stage at most 6 whose
poll answers SUCCEEDED, whose output batch has at least one item passing
validation, and whose storage upload and resubmission succeed, the sweep
builds the next stage's input from exactly the output items that pass
`validate_output`, increments `current_stage` by exactly 1, and records the
fresh remote handle returned by the resubmission. -/
theorem C2_stage_advancement (now : Int) (env : SchedEnv) (job : SJob) (uri handle : String)
    (htime : ¬ now - job.updated_at > JOB_TIMEOUT_SECONDS)
    (hpoll : env.getStatus job.vertex_job_name = Except.ok "JOB_STATE_SUCCEEDED")
    (hstage : job.current_stage ≤ 6)
    (hvalid : (env.readOutput
        (job.gcs_root ++ "stage_" ++ toString job.current_stage ++ "/output/")).filter
        (fun r => (validate_output job.current_stage r).1) ≠ [])
    (hup : ∀ items path, env.upload items path = Except.ok uri)
    (hsub : ∀ a b c, env.batchSubmit a b c = Except.ok handle) :
    processJob now env job =
      Except.ok ⟨{ job with vertex_job_name := some handle,
                            current_stage := job.current_stage + 1, updated_at := now },
        some (((env.readOutput
              (job.gcs_root ++ "stage_" ++ toString job.current_stage ++ "/output/")).filter
            (fun r => (validate_output job.current_stage r).1)).map
          (fun r => build_input_for_stage (job.current_stage + 1) (some r) none))⟩ := by
  have hres : env.readOutput
      (job.gcs_root ++ "stage_" ++ toString job.current_stage ++ "/output/") ≠ [] := by
    intro h
    rw [h] at hvalid
    simp at hvalid
  have hnot7 : ¬ job.current_stage + 1 > 7 := by omega
  rcases hr : env.readOutput
      (job.gcs_root ++ "stage_" ++ toString job.current_stage ++ "/output/") with _ | ⟨r, rs⟩
  · exact absurd hr hres
  rw [hr] at hvalid
  rcases hf : (r :: rs).filter (fun x => (validate_output job.current_stage x).1)
      with _ | ⟨x, xs⟩
  · exact absurd hf hvalid
  unfold processJob
  rw [if_neg htime, hpoll, hr]
  simp only [eq_self_iff_true, ite_true, if_neg hnot7, hf, List.map_cons]
  rw [hup]
  simp only []
  rw [hsub]

/-- Witness for C2: stage 6, a batch of three items of which one contains
the refusal marker — the next stage's uploaded batch has exactly the two
passing items, the stage becomes 7, and the fresh handle is recorded. -/
theorem C2_stage_advancement_witness :
    processJob 100 (envPoll "JOB_STATE_SUCCEEDED"
        [goodItem "alpha", goodItem "As an AI I refuse", goodItem "beta"])
      (mkSJob "jw" 6 (some "h") 0) =
      Except.ok ⟨{ mkSJob "jw" 6 (some "h") 0 with vertex_job_name := some "newhandle",
                                                   current_stage := 7, updated_at := 100 },
        some [build_input_for_stage 7 (some (goodItem "alpha")) none,
              build_input_for_stage 7 (some (goodItem "beta")) none]⟩ ∧
    [build_input_for_stage 7 (some (goodItem "alpha")) none,
     build_input_for_stage 7 (some (goodItem "beta")) none].length = 2 := by
  refine ⟨?_, rfl⟩
  have h := C2_stage_advancement 100
    (envPoll "JOB_STATE_SUCCEEDED"
      [goodItem "alpha", goodItem "As an AI I refuse", goodItem "beta"])
    (mkSJob "jw" 6 (some "h") 0) "gs://up" "newhandle"
    (by decide) rfl (by decide) (fun hc => List.noConfusion hc)
    (fun _ _ => rfl) (fun _ _ _ => rfl)
  exact h

/-! Claim C9. -/

/-- C9 counterexample: on the empty string — an input from which no JSON
object can be parsed — `clean_and_parse_json` does not return null: the
falsy-input guard returns an empty dict before any parsing. -/
theorem C9_counterexample :
    clean_and_parse_json (fun _ => Except.error ()) "" = some (JVal.obj []) ∧
    clean_and_parse_json (fun _ => Except.error ()) "" ≠ none := by
  constructor
  · rfl
  · intro h
    rw [show clean_and_parse_json (fun _ => Except.error ()) "" = some (JVal.obj [])
        from rfl] at h
    cases h

/-- C9 amended: `extract_text` returns the empty string on every input
whose envelope lacks the expected nested shape, and `clean_and_parse_json`
returns null on every non-empty text whose cleaned span fails to parse;
neither raises (both are total, the parser's decode error being the only
caught exception) — but empty input yields an empty object, not null. -/
theorem C9_malformed_input :
    (∀ v : JVal, extractTextPath v = none → extract_text v = "") ∧
    (∀ (json_loads : String → Except Unit JVal) (t : String), t ≠ "" →
      json_loads (cleanedText t) = Except.error () →
      clean_and_parse_json json_loads t = none) ∧
    (∀ (json_loads : String → Except Unit JVal),
      clean_and_parse_json json_loads "" = some (JVal.obj [])) := by
  refine ⟨fun v h => ?_, fun loads t ht hl => ?_, fun loads => rfl⟩
  · simp [extract_text, h]
  · simp [clean_and_parse_json, ht, hl]

/-- Witness for C9: a shapeless envelope extracts to the empty string and
an unparseable non-empty text parses to null. -/
theorem C9_malformed_input_witness :
    extract_text (JVal.obj []) = "" ∧
    clean_and_parse_json (fun _ => Except.error ()) "the model refused" = none :=
  ⟨C9_malformed_input.1 (JVal.obj []) rfl,
   C9_malformed_input.2.1 (fun _ => Except.error ()) "the model refused"
     (by decide) rfl⟩

/-! Dispatcher helper lemmas shared by claims C1, C3 and C10. -/

/-- During the cooldown window `submit_job` rejects immediately: the error
message carries the remaining seconds, the job is committed FAILED with the
same message, and neither an upload nor a remote attempt happens. -/
theorem submit_job_cooldown (now cu : Int) (bucket : String)
    (upload : List JVal → String → Except String String)
    (vsubmit : String → Except String String)
    (pool : List ProjectCtx) (running_count : Nat) (job_uuid : String)
    (request_data : List (String × JVal)) (job : DJob)
    (h : now < cu) :
    submit_job now cu bucket upload vsubmit pool running_count job_uuid request_data
        (some job) =
      ⟨Except.error ("System in cooldown (60s). Retry in " ++ toString (cu - now) ++ "s"),
       some { job with status := "FAILED",
                       result_summary :=
                         some ("System in cooldown (60s). Retry in " ++ toString (cu - now) ++ "s") },
       0, 0, cu⟩ := by
  simp only [submit_job]
  rw [if_pos h]

/-- At or above the concurrency ceiling `submit_job` rejects immediately,
committing the job FAILED, without uploading or attempting a candidate. -/
theorem submit_job_concurrency (now cu : Int) (bucket : String)
    (upload : List JVal → String → Except String String)
    (vsubmit : String → Except String String)
    (pool : List ProjectCtx) (running_count : Nat) (job_uuid : String)
    (request_data : List (String × JVal)) (job : DJob)
    (h1 : ¬ now < cu) (h2 : running_count ≥ MAX_CONCURRENT_JOBS) :
    submit_job now cu bucket upload vsubmit pool running_count job_uuid request_data
        (some job) =
      ⟨Except.error
         ("Max concurrent jobs reached (" ++ toString MAX_CONCURRENT_JOBS ++ "). Retry later."),
       some { job with status := "FAILED",
                       result_summary :=
                         some ("Max concurrent jobs reached (" ++
                           toString MAX_CONCURRENT_JOBS ++ "). Retry later.") },
       0, 0, cu⟩ := by
  simp only [submit_job]
  rw [if_neg h1, if_pos h2]

/-- A failing stage-1 upload marks the job FAILED with the prefixed reason
and re-raises the original exception; no candidate is attempted. -/
theorem submit_job_upload_error (now cu : Int) (bucket : String)
    (upload : List JVal → String → Except String String)
    (vsubmit : String → Except String String)
    (pool : List ProjectCtx) (running_count : Nat) (job_uuid : String)
    (request_data : List (String × JVal)) (job : DJob) (e : String)
    (h1 : ¬ now < cu) (h2 : ¬ running_count ≥ MAX_CONCURRENT_JOBS)
    (hu : upload (stage1Items job_uuid request_data) (job_uuid ++ "/stage_1/input.jsonl") =
      Except.error e) :
    submit_job now cu bucket upload vsubmit pool running_count job_uuid request_data
        (some job) =
      ⟨Except.error e,
       some { job with status := "FAILED",
                       result_summary := some ("GCS Upload Failed: " ++ e) },
       1, 0, cu⟩ := by
  simp only [submit_job]
  rw [if_neg h1, if_neg h2, hu]

/-- With an empty pool the job is committed FAILED after the single upload
and the pool-exhaustion message is raised without tripping the cooldown. -/
theorem submit_job_no_pool (now cu : Int) (bucket uri : String)
    (upload : List JVal → String → Except String String)
    (vsubmit : String → Except String String)
    (running_count : Nat) (job_uuid : String)
    (request_data : List (String × JVal)) (job : DJob)
    (h1 : ¬ now < cu) (h2 : ¬ running_count ≥ MAX_CONCURRENT_JOBS)
    (hu : upload (stage1Items job_uuid request_data) (job_uuid ++ "/stage_1/input.jsonl") =
      Except.ok uri) :
    submit_job now cu bucket upload vsubmit [] running_count job_uuid request_data
        (some job) =
      ⟨Except.error "No active projects loaded.",
       some { job with input_gcs_uri := some uri, status := "FAILED",
                       result_summary := some "No active projects loaded." },
       1, 0, cu⟩ := by
  simp only [submit_job]
  rw [if_neg h1, if_neg h2, hu]

/-- Past admission with a successful upload and a non-empty pool,
`submit_job` commits the input location and hands over to the
project-selection loop, having uploaded exactly once. -/
theorem submit_job_dispatches (now cu : Int) (bucket uri : String)
    (upload : List JVal → String → Except String String)
    (vsubmit : String → Except String String)
    (pool : List ProjectCtx) (running_count : Nat) (job_uuid : String)
    (request_data : List (String × JVal)) (job : DJob)
    (h1 : ¬ now < cu) (h2 : ¬ running_count ≥ MAX_CONCURRENT_JOBS)
    (hu : upload (stage1Items job_uuid request_data) (job_uuid ++ "/stage_1/input.jsonl") =
      Except.ok uri)
    (hpool : pool ≠ []) :
    submit_job now cu bucket upload vsubmit pool running_count job_uuid request_data
        (some job) =
      ⟨(tryProjects now cu bucket job_uuid vsubmit
          { job with input_gcs_uri := some uri } "" pool).result,
       some (tryProjects now cu bucket job_uuid vsubmit
          { job with input_gcs_uri := some uri } "" pool).job,
       1,
       (tryProjects now cu bucket job_uuid vsubmit
          { job with input_gcs_uri := some uri } "" pool).attempts,
       (tryProjects now cu bucket job_uuid vsubmit
          { job with input_gcs_uri := some uri } "" pool).cooldown_until⟩ := by
  rcases pool with _ | ⟨p, rest⟩
  · exact absurd rfl hpool
  simp only [submit_job]
  rw [if_neg h1, if_neg h2, hu]

/-- A traversal whose tail candidate succeeds after an all-failing front:
the job is stamped RUNNING with the succeeding identifier and handle, the
cooldown is untouched, and every candidate up to the success was tried. -/
theorem tryProjects_front_fail (now cu : Int) (bucket uuid : String)
    (vsubmit : String → Except String String) (job : DJob) (c : ProjectCtx) (vjid : String)
    (hsucc : vsubmit c.project_id = Except.ok vjid) :
    ∀ (front : List ProjectCtx) (la : String),
      (∀ p ∈ front, ∃ e, vsubmit p.project_id = Except.error e) →
      tryProjects now cu bucket uuid vsubmit job la (front ++ [c]) =
        ⟨Except.ok (JVal.obj [("job_uuid", JVal.str uuid), ("status", JVal.str "STARTED"),
            ("project", JVal.str c.project_id)]),
         { job with status := "RUNNING", used_project_id := some c.project_id,
                    vertex_job_id := some vjid,
                    output_gcs_uri :=
                      some ("gs://" ++ bucket ++ "/" ++ uuid ++ "/stage_1/output/") },
         front.length + 1, cu⟩ := by
  intro front
  induction front with
  | nil => intro la _; simp [tryProjects, hsucc]
  | cons q qs ih =>
    intro la hfail
    obtain ⟨e, he⟩ := hfail q (by simp)
    have ihh := ih e (fun p hp => hfail p (by simp [hp]))
    simp [tryProjects, he, ihh]

/-- A traversal in which every candidate fails: the result is an error, the
job is committed FAILED with a summary, and the 60-second cooldown is
tripped. -/
theorem tryProjects_all_fail (now cu : Int) (bucket uuid : String)
    (vsubmit : String → Except String String) (job : DJob) :
    ∀ (pool : List ProjectCtx) (la : String),
      (∀ p ∈ pool, ∃ e, vsubmit p.project_id = Except.error e) →
      (∃ e, (tryProjects now cu bucket uuid vsubmit job la pool).result = Except.error e) ∧
      (tryProjects now cu bucket uuid vsubmit job la pool).job.status = "FAILED" ∧
      (tryProjects now cu bucket uuid vsubmit job la pool).job.result_summary.isSome ∧
      (tryProjects now cu bucket uuid vsubmit job la pool).cooldown_until = now + 60 := by
  intro pool
  induction pool with
  | nil => intro la _; exact ⟨⟨_, rfl⟩, rfl, rfl, rfl⟩
  | cons q qs ih =>
    intro la hfail
    obtain ⟨e, he⟩ := hfail q (by simp)
    have ihh := ih e (fun p hp => hfail p (by simp [hp]))
    simp only [tryProjects, he]
    exact ihh

/-- A chat traversal in which every candidate fails: error result and the
60-second cooldown tripped. -/
theorem tryChat_all_fail (now cu : Int) (chat : String → Except String JVal) :
    ∀ (pool : List ProjectCtx) (la : String),
      (∀ p ∈ pool, ∃ e, chat p.project_id = Except.error e) →
      (∃ e, (tryChat now cu chat la pool).1 = Except.error e) ∧
      (tryChat now cu chat la pool).2.2 = now + 60 := by
  intro pool
  induction pool with
  | nil => intro la _; exact ⟨⟨_, rfl⟩, rfl⟩
  | cons q qs ih =>
    intro la hfail
    obtain ⟨e, he⟩ := hfail q (by simp)
    have ihh := ih e (fun p hp => hfail p (by simp [hp]))
    simp only [tryChat, he]
    exact ihh

/-! Claim C1. -/

/-- C1: outside the cooldown window and under the concurrency ceiling,
with the stage-1 upload succeeding, a pool whose first K−1 candidates fail
and whose last succeeds makes `submit_job` return success; the committed
record is RUNNING with `used_project_id` the succeeding identifier and the
fresh remote handle, the upload happened exactly once — before the
traversal, independently of the pool size — and the cooldown is untouched. -/
theorem C1_failover_single_upload (now cu : Int) (bucket uri vjid : String)
    (upload : List JVal → String → Except String String)
    (vsubmit : String → Except String String)
    (front : List ProjectCtx) (c : ProjectCtx) (running_count : Nat)
    (job_uuid : String) (request_data : List (String × JVal)) (job : DJob)
    (hcool : ¬ now < cu) (hconc : running_count < MAX_CONCURRENT_JOBS)
    (hup : ∀ items path, upload items path = Except.ok uri)
    (hfail : ∀ p ∈ front, ∃ e, vsubmit p.project_id = Except.error e)
    (hsucc : vsubmit c.project_id = Except.ok vjid) :
    submit_job now cu bucket upload vsubmit (front ++ [c]) running_count job_uuid
        request_data (some job) =
      ⟨Except.ok (JVal.obj [("job_uuid", JVal.str job_uuid), ("status", JVal.str "STARTED"),
          ("project", JVal.str c.project_id)]),
       some { job with input_gcs_uri := some uri, status := "RUNNING",
                       used_project_id := some c.project_id, vertex_job_id := some vjid,
                       output_gcs_uri :=
                         some ("gs://" ++ bucket ++ "/" ++ job_uuid ++ "/stage_1/output/") },
       1, front.length + 1, cu⟩ := by
  have h2 : ¬ running_count ≥ MAX_CONCURRENT_JOBS := by omega
  rw [submit_job_dispatches now cu bucket uri upload vsubmit (front ++ [c]) running_count
    job_uuid request_data job hcool h2 (hup _ _) (by simp)]
  rw [tryProjects_front_fail now cu bucket job_uuid vsubmit
    { job with input_gcs_uri := some uri } c vjid hsucc front "" hfail]

/-- Witness for C1: pool of size 3 whose first two candidates fail. -/
theorem C1_failover_single_upload_witness :
    submit_job 0 0 "b" (fun _ _ => Except.ok "gs://b/in") vsOnlyC
        [⟨"A"⟩, ⟨"B"⟩, ⟨"C"⟩] 0 "job-1" [("topic", JVal.str "x")] (some (mkDJob "job-1")) =
      ⟨Except.ok (JVal.obj [("job_uuid", JVal.str "job-1"), ("status", JVal.str "STARTED"),
          ("project", JVal.str "C")]),
       some ⟨"job-1", "RUNNING", some "gs://b/in", some "gs://b/job-1/stage_1/output/",
             some "vjob-1", none, some "C"⟩,
       1, 3, 0⟩ := by
  have h := C1_failover_single_upload 0 0 "b" "gs://b/in" "vjob-1"
    (fun _ _ => Except.ok "gs://b/in") vsOnlyC [⟨"A"⟩, ⟨"B"⟩] ⟨"C"⟩ 0 "job-1"
    [("topic", JVal.str "x")] (mkDJob "job-1")
    (by decide) (by decide) (fun _ _ => rfl)
    (fun p hp => ⟨"quota", by
      simp at hp
      rcases hp with rfl | rfl <;> rfl⟩)
    rfl
  exact h

/-! Claim C3. -/

/-- C3 counterexample: during the cooldown window `dispatch_chat` fails
with the same fixed message whether 60 or 960 seconds remain — its
cooldown error does not carry the remaining seconds (only `submit_job`'s
does). -/
theorem C3_counterexample :
    dispatch_chat 40 100 (fun _ => Except.error "quota") [⟨"A"⟩] =
      (Except.error "System in cooldown.", 0, 100) ∧
    dispatch_chat 40 1000 (fun _ => Except.error "quota") [⟨"A"⟩] =
      (Except.error "System in cooldown.", 0, 1000) :=
  ⟨rfl, rfl⟩

/-- C3 amended: exhausting every candidate trips the shared cooldown for a
fixed 60 seconds in both dispatch paths; while `now < cooldownUntil` every
dispatch fails immediately without attempting any candidate and without
uploading — `submit_job`'s error carries the remaining seconds, while
`dispatch_chat`'s is a fixed message without them. -/
theorem C3_global_cooldown :
    (∀ (now cu : Int) (bucket uri : String)
        (upload : List JVal → String → Except String String)
        (vsubmit : String → Except String String)
        (pool : List ProjectCtx) (running_count : Nat) (job_uuid : String)
        (request_data : List (String × JVal)) (job : DJob),
      ¬ now < cu → running_count < MAX_CONCURRENT_JOBS →
      (∀ items path, upload items path = Except.ok uri) → pool ≠ [] →
      (∀ p ∈ pool, ∃ e, vsubmit p.project_id = Except.error e) →
      (∃ e, (submit_job now cu bucket upload vsubmit pool running_count job_uuid
          request_data (some job)).result = Except.error e) ∧
      (submit_job now cu bucket upload vsubmit pool running_count job_uuid
          request_data (some job)).cooldown_until = now + 60) ∧
    (∀ (now cu : Int) (chat : String → Except String JVal) (pool : List ProjectCtx),
      ¬ now < cu → pool ≠ [] →
      (∀ p ∈ pool, ∃ e, chat p.project_id = Except.error e) →
      (∃ e, (dispatch_chat now cu chat pool).1 = Except.error e) ∧
      (dispatch_chat now cu chat pool).2.2 = now + 60) ∧
    (∀ (now cu : Int) (bucket : String)
        (upload : List JVal → String → Except String String)
        (vsubmit : String → Except String String)
        (pool : List ProjectCtx) (running_count : Nat) (job_uuid : String)
        (request_data : List (String × JVal)) (job : DJob),
      now < cu →
      submit_job now cu bucket upload vsubmit pool running_count job_uuid request_data
          (some job) =
        ⟨Except.error ("System in cooldown (60s). Retry in " ++ toString (cu - now) ++ "s"),
         some { job with status := "FAILED",
                         result_summary :=
                           some ("System in cooldown (60s). Retry in " ++
                             toString (cu - now) ++ "s") },
         0, 0, cu⟩) ∧
    (∀ (now cu : Int) (chat : String → Except String JVal) (pool : List ProjectCtx),
      now < cu →
      dispatch_chat now cu chat pool = (Except.error "System in cooldown.", 0, cu)) := by
  refine ⟨?_, ?_, ?_, ?_⟩
  · intro now cu bucket uri upload vsubmit pool running_count job_uuid request_data job
      hcool hconc hup hpool hfail
    have h2 : ¬ running_count ≥ MAX_CONCURRENT_JOBS := by omega
    rw [submit_job_dispatches now cu bucket uri upload vsubmit pool running_count
      job_uuid request_data job hcool h2 (hup _ _) hpool]
    have h := tryProjects_all_fail now cu bucket job_uuid vsubmit
      { job with input_gcs_uri := some uri } pool "" hfail
    exact ⟨h.1, h.2.2.2⟩
  · intro now cu chat pool hcool hpool hfail
    rcases pool with _ | ⟨p, rest⟩
    · exact absurd rfl hpool
    simp only [dispatch_chat]
    rw [if_neg hcool]
    exact tryChat_all_fail now cu chat (p :: rest) "" hfail
  · intro now cu bucket upload vsubmit pool running_count job_uuid request_data job h
    exact submit_job_cooldown now cu bucket upload vsubmit pool running_count job_uuid
      request_data job h
  · intro now cu chat pool h
    simp only [dispatch_chat]
    rw [if_pos h]

/-- Witness for C3: a two-candidate pool that fails everywhere trips the
cooldown to 60 in both paths; afterwards, at time 40 against a cooldown of
100, both paths reject without any attempt. -/
theorem C3_global_cooldown_witness :
    ((∃ e, (submit_job 0 0 "b" (fun _ _ => Except.ok "u") (fun _ => Except.error "quota")
        [⟨"A"⟩, ⟨"B"⟩] 0 "j" [] (some (mkDJob "j"))).result = Except.error e) ∧
      (submit_job 0 0 "b" (fun _ _ => Except.ok "u") (fun _ => Except.error "quota")
        [⟨"A"⟩, ⟨"B"⟩] 0 "j" [] (some (mkDJob "j"))).cooldown_until = 60) ∧
    ((∃ e, (dispatch_chat 0 0 (fun _ => Except.error "quota") [⟨"A"⟩, ⟨"B"⟩]).1 =
        Except.error e) ∧
      (dispatch_chat 0 0 (fun _ => Except.error "quota") [⟨"A"⟩, ⟨"B"⟩]).2.2 = 60) ∧
    (submit_job 40 100 "b" (fun _ _ => Except.ok "u") (fun _ => Except.error "quota")
        [⟨"A"⟩] 0 "j" [] (some (mkDJob "j")) =
      ⟨Except.error ("System in cooldown (60s). Retry in " ++ toString ((100 : Int) - 40) ++ "s"),
       some { mkDJob "j" with status := "FAILED",
                              result_summary :=
                                some ("System in cooldown (60s). Retry in " ++
                                  toString ((100 : Int) - 40) ++ "s") },
       0, 0, 100⟩) ∧
    (dispatch_chat 50 100 (fun _ => Except.error "quota") [⟨"A"⟩] =
      (Except.error "System in cooldown.", 0, 100)) :=
  ⟨C3_global_cooldown.1 0 0 "b" "u" (fun _ _ => Except.ok "u") (fun _ => Except.error "quota")
      [⟨"A"⟩, ⟨"B"⟩] 0 "j" [] (mkDJob "j") (by decide) (by decide) (fun _ _ => rfl)
      (by simp) (fun p _ => ⟨"quota", rfl⟩),
   C3_global_cooldown.2.1 0 0 (fun _ => Except.error "quota") [⟨"A"⟩, ⟨"B"⟩]
      (by decide) (by simp) (fun p _ => ⟨"quota", rfl⟩),
   C3_global_cooldown.2.2.1 40 100 "b" (fun _ _ => Except.ok "u")
      (fun _ => Except.error "quota") [⟨"A"⟩] 0 "j" [] (mkDJob "j") (by decide),
   C3_global_cooldown.2.2.2 50 100 (fun _ => Except.error "quota") [⟨"A"⟩] (by decide)⟩

/-! Claim C10. -/

/-- Every outcome of the project-selection loop: either success with a
RUNNING job stamped with a credential and handle, or an error with a FAILED
job carrying a summary. -/
theorem tryProjects_outcome (now cu : Int) (bucket uuid : String)
    (vsubmit : String → Except String String) (job : DJob) :
    ∀ (pool : List ProjectCtx) (la : String),
      ((∃ v, (tryProjects now cu bucket uuid vsubmit job la pool).result = Except.ok v) ∧
        (tryProjects now cu bucket uuid vsubmit job la pool).job.status = "RUNNING" ∧
        (tryProjects now cu bucket uuid vsubmit job la pool).job.used_project_id.isSome ∧
        (tryProjects now cu bucket uuid vsubmit job la pool).job.vertex_job_id.isSome) ∨
      ((∃ e, (tryProjects now cu bucket uuid vsubmit job la pool).result = Except.error e) ∧
        (tryProjects now cu bucket uuid vsubmit job la pool).job.status = "FAILED" ∧
        (tryProjects now cu bucket uuid vsubmit job la pool).job.result_summary.isSome) := by
  intro pool
  induction pool with
  | nil => intro la; right; exact ⟨⟨_, rfl⟩, rfl, rfl⟩
  | cons q qs ih =>
    intro la
    cases hq : vsubmit q.project_id with
    | ok vjid =>
      left
      have hres : tryProjects now cu bucket uuid vsubmit job la (q :: qs) =
          ⟨Except.ok (JVal.obj [("job_uuid", JVal.str uuid), ("status", JVal.str "STARTED"),
              ("project", JVal.str q.project_id)]),
           { job with status := "RUNNING", used_project_id := some q.project_id,
                      vertex_job_id := some vjid,
                      output_gcs_uri :=
                        some ("gs://" ++ bucket ++ "/" ++ uuid ++ "/stage_1/output/") },
           1, cu⟩ := by
        simp [tryProjects, hq]
      rw [hres]
      exact ⟨⟨_, rfl⟩, rfl, rfl, rfl⟩
    | error e =>
      have ihh := ih e
      simp only [tryProjects, hq]
      exact ihh

/-- C10: for an existing job record, `submit_job` either returns success
having committed the record RUNNING with the used credential and remote
handle stamped, or raises having first committed the record FAILED with a
failure reason in `result_summary`; only a call for a nonexistent record
raises without touching any job. -/
theorem C10_submit_job_outcomes (now cu : Int) (bucket : String)
    (upload : List JVal → String → Except String String)
    (vsubmit : String → Except String String)
    (pool : List ProjectCtx) (running_count : Nat) (job_uuid : String)
    (request_data : List (String × JVal)) :
    ((submit_job now cu bucket upload vsubmit pool running_count job_uuid request_data
        none).job = none ∧
      ∃ e, (submit_job now cu bucket upload vsubmit pool running_count job_uuid
        request_data none).result = Except.error e) ∧
    (∀ job : DJob,
      ((∃ v, (submit_job now cu bucket upload vsubmit pool running_count job_uuid
            request_data (some job)).result = Except.ok v) ∧
        (∃ j, (submit_job now cu bucket upload vsubmit pool running_count job_uuid
            request_data (some job)).job = some j ∧ j.status = "RUNNING" ∧
          j.used_project_id.isSome ∧ j.vertex_job_id.isSome)) ∨
      ((∃ e, (submit_job now cu bucket upload vsubmit pool running_count job_uuid
            request_data (some job)).result = Except.error e) ∧
        (∃ j, (submit_job now cu bucket upload vsubmit pool running_count job_uuid
            request_data (some job)).job = some j ∧ j.status = "FAILED" ∧
          j.result_summary.isSome))) := by
  constructor
  · exact ⟨rfl, ⟨_, rfl⟩⟩
  · intro job
    by_cases h1 : now < cu
    · right
      rw [submit_job_cooldown now cu bucket upload vsubmit pool running_count job_uuid
        request_data job h1]
      exact ⟨⟨_, rfl⟩, ⟨_, rfl, rfl, rfl⟩⟩
    by_cases h2 : running_count ≥ MAX_CONCURRENT_JOBS
    · right
      rw [submit_job_concurrency now cu bucket upload vsubmit pool running_count job_uuid
        request_data job h1 h2]
      exact ⟨⟨_, rfl⟩, ⟨_, rfl, rfl, rfl⟩⟩
    cases hu : upload (stage1Items job_uuid request_data)
        (job_uuid ++ "/stage_1/input.jsonl") with
    | error e =>
      right
      rw [submit_job_upload_error now cu bucket upload vsubmit pool running_count job_uuid
        request_data job e h1 h2 hu]
      exact ⟨⟨_, rfl⟩, ⟨_, rfl, rfl, rfl⟩⟩
    | ok uri =>
      rcases hp : pool with _ | ⟨p, rest⟩
      · right
        rw [submit_job_no_pool now cu bucket uri upload vsubmit running_count job_uuid
          request_data job h1 h2 hu]
        exact ⟨⟨_, rfl⟩, ⟨_, rfl, rfl, rfl⟩⟩
      · rw [submit_job_dispatches now cu bucket uri upload vsubmit (p :: rest)
          running_count job_uuid request_data job h1 h2 hu (by simp)]
        rcases tryProjects_outcome now cu bucket job_uuid vsubmit
            { job with input_gcs_uri := some uri } (p :: rest) "" with
          ⟨⟨v, hv⟩, hs, hid, hvj⟩ | ⟨⟨e, he⟩, hs, hsum⟩
        · exact Or.inl ⟨⟨v, hv⟩, ⟨_, rfl, hs, hid, hvj⟩⟩
        · exact Or.inr ⟨⟨e, he⟩, ⟨_, rfl, hs, hsum⟩⟩

/-- Witness for C10 at a concrete call: a missing record raises without a
job, and an existing record lands in one of the two committed outcomes. -/
theorem C10_submit_job_outcomes_witness :
    ((submit_job 0 0 "b" (fun _ _ => Except.ok "u") vsOnlyC [⟨"C"⟩] 0 "jx" []
        none).job = none ∧
      ∃ e, (submit_job 0 0 "b" (fun _ _ => Except.ok "u") vsOnlyC [⟨"C"⟩] 0 "jx" []
        none).result = Except.error e) ∧
    (((∃ v, (submit_job 0 0 "b" (fun _ _ => Except.ok "u") vsOnlyC [⟨"C"⟩] 0 "jx" []
          (some (mkDJob "jx"))).result = Except.ok v) ∧
        (∃ j, (submit_job 0 0 "b" (fun _ _ => Except.ok "u") vsOnlyC [⟨"C"⟩] 0 "jx" []
          (some (mkDJob "jx"))).job = some j ∧ j.status = "RUNNING" ∧
          j.used_project_id.isSome ∧ j.vertex_job_id.isSome)) ∨
      ((∃ e, (submit_job 0 0 "b" (fun _ _ => Except.ok "u") vsOnlyC [⟨"C"⟩] 0 "jx" []
          (some (mkDJob "jx"))).result = Except.error e) ∧
        (∃ j, (submit_job 0 0 "b" (fun _ _ => Except.ok "u") vsOnlyC [⟨"C"⟩] 0 "jx" []
          (some (mkDJob "jx"))).job = some j ∧ j.status = "FAILED" ∧
          j.result_summary.isSome))) :=
  ⟨(C10_submit_job_outcomes 0 0 "b" (fun _ _ => Except.ok "u") vsOnlyC [⟨"C"⟩] 0 "jx" []).1,
   (C10_submit_job_outcomes 0 0 "b" (fun _ _ => Except.ok "u") vsOnlyC [⟨"C"⟩] 0 "jx" []).2
     (mkDJob "jx")⟩

end LLMBatch
